import Mathlib

/-!
Verification development for the `credsystem-hackathon-2025-10-25` service:
a shallow embedding, in Lean 4, of the Go HTTP façade, prompt manager,
outbound OpenRouter classification client and core pipeline, together with
theorems settling the behavioural claims about them.

Embedding conventions:
* Go `string` is Lean `String`; byte slices holding UTF-8 text are `String`.
* Fallible Go functions returning `(T, error)` become `Except String T`.
* `encoding/json` behaviour is modelled by an executable JSON scanner/decoder
  (`parseVal`, `jsonParseWhole`, `jsonParseNext`, the `decode*` functions)
  that mirrors the distinction between `json.Unmarshal` (whole-input) and
  `json.Decoder.Decode` (one value, trailing data ignored), Go's zero-value
  semantics for absent fields, and `ParseUint`-based decoding into `uint8`.
-/

/-! ## String helpers mirroring Go's `strings` package -/

/-- `listStarts ys xs` is true iff the list `ys` starts with `xs`. -/
def listStarts : List Char → List Char → Bool
  | _, [] => true
  | [], _ :: _ => false
  | y :: ys, x :: xs => x == y && listStarts ys xs

/-- `listInf ys xs` is true iff `xs` occurs as a contiguous sublist of `ys`. -/
def listInf : List Char → List Char → Bool
  | [], xs => listStarts [] xs
  | y :: t, xs => listStarts (y :: t) xs || listInf t xs

/-- Go `strings.Contains s sub`. -/
def goContains (s sub : String) : Bool := listInf s.data sub.data

/-- Go `strings.HasPrefix`-style check: `s` starts with `p`. -/
def strStarts (s p : String) : Bool := listStarts s.data p.data

/-- The white-space predicate of Go's `unicode.IsSpace` restricted to the
code points that occur in this code base (the Latin-1 range). -/
def goIsSpace (c : Char) : Bool :=
  c = ' ' || c = '\t' || c = '\n' || c = (Char.ofNat 11) || c = (Char.ofNat 12) ||
  c = '\r' || c = (Char.ofNat 0x85) || c = (Char.ofNat 0xA0)

/-- Go `strings.TrimSpace`. -/
def trimSpace (s : String) : String :=
  ⟨((s.data.dropWhile goIsSpace).reverse.dropWhile goIsSpace).reverse⟩

/-! ## Prompt Manager (`internal/prompt/prompt.go`) -/

/-- The `PromptManager` struct; only the `systemPrompt` field is consulted by
the prompt-generation and validation methods embedded below.  The system
prompt is configurable (`NewPromptManagerWithConfig`), so theorems quantify
over it. -/
structure PromptManager where
  systemPrompt : String
deriving Repr, DecidableEq

/-- `PromptManager.GenerateClassificationPrompt` from `prompt.go`. -/
def PromptManager.GenerateClassificationPrompt (pm : PromptManager) (userIntent : String) :
    Except String String :=
  if userIntent = "" then
    .error "user intent cannot be empty"
  else
    .ok (pm.systemPrompt ++ "\n\nUser Intent: " ++ trimSpace userIntent ++
      "\n\nPlease classify this intent and respond with the appropriate service information in JSON format.")

/-- `PromptManager.GenerateModelSpecificPrompt` from `prompt.go`. -/
def PromptManager.GenerateModelSpecificPrompt (pm : PromptManager)
    (userIntent modelName : String) : Except String String :=
  if userIntent = "" then
    .error "user intent cannot be empty"
  else if goContains modelName "mistral" then
    .ok ("<s>[INST] " ++ pm.systemPrompt ++ " [/INST]\n\nUser Intent: " ++ trimSpace userIntent)
  else
    .ok (pm.systemPrompt ++ "\n\nUser Intent: " ++ trimSpace userIntent ++
      "\n\nClassify this intent and provide your reasoning and the final JSON.")

/-- `PromptManager.ValidatePromptResponse` from `prompt.go`: substring checks
for the quoted field names, no JSON parsing. -/
def PromptManager.ValidatePromptResponse (_pm : PromptManager) (response : String) :
    Except String Unit :=
  if ¬ goContains response "\"service_id\"" then
    .error "response missing service_id field"
  else if ¬ goContains response "\"service_name\"" then
    .error "response missing service_name field"
  else
    .ok ()

/-- A `PromptManager` with a short custom system prompt, as built by
`NewPromptManagerWithConfig`; used to instantiate witnesses. -/
def pmTest : PromptManager := ⟨"SYSTEM PROMPT"⟩

/-! ## A model of `encoding/json` (values, scanner, struct decoding)

Mirrors the slice of the Go standard library the repository relies on:
`json.Unmarshal` parses one value and rejects trailing non-whitespace,
`json.Decoder.Decode` parses one value and leaves trailing data unread;
absent object fields leave the Go zero value; numbers destined for a `uint8`
field go through `strconv.ParseUint`-style checks (digits only, ≤ 255). -/

/-- JSON values; numbers keep their literal token, as Go's scanner hands the
literal text to the typed decoding step. -/
inductive Jval where
  | jnull
  | jbool (b : Bool)
  | jnum (tok : String)
  | jstr (s : String)
  | jarr (elems : List Jval)
  | jobj (fields : List (String × Jval))
deriving Repr, Inhabited

/-- JSON insignificant whitespace (RFC 8259, what Go's scanner skips). -/
def isJsonWs (c : Char) : Bool := c = ' ' || c = '\t' || c = '\n' || c = '\r'

def skipWs (cs : List Char) : List Char := cs.dropWhile isJsonWs

/-- Resolve a single-character escape inside a JSON string (the `\uXXXX`
form does not occur in this code base and is out of the model). -/
def unescChar (c : Char) : Char :=
  if c = 'n' then '\n' else if c = 't' then '\t' else if c = 'r' then '\r'
  else if c = 'b' then Char.ofNat 8 else if c = 'f' then Char.ofNat 12 else c

/-- Scan a JSON string body (input starts after the opening quote). -/
def scanStringAux (acc : List Char) : List Char → Except String (String × List Char)
  | [] => .error "unexpected end of JSON input"
  | c :: rest =>
    if c = '"' then .ok (⟨acc.reverse⟩, rest)
    else if c = '\\' then
      match rest with
      | [] => .error "unexpected end of JSON input"
      | e :: rest2 => scanStringAux (unescChar e :: acc) rest2
    else scanStringAux (c :: acc) rest

/-- Characters that may extend a numeric literal token. -/
def isNumChar (c : Char) : Bool :=
  c.isDigit || c = '-' || c = '+' || c = '.' || c = 'e' || c = 'E'

def scanNumber (cs : List Char) : String × List Char :=
  (⟨cs.takeWhile isNumChar⟩, cs.dropWhile isNumChar)

/-- Consume the integer part of a JSON number (`0` or nonzero digits). -/
def afterInt : List Char → Option (List Char)
  | [] => none
  | c :: r =>
    if c = '0' then some r
    else if c.isDigit then some (r.dropWhile Char.isDigit) else none

/-- Consume an optional fraction part. -/
def afterFrac : List Char → Option (List Char)
  | '.' :: r =>
    match r with
    | c :: r2 => if c.isDigit then some (r2.dropWhile Char.isDigit) else none
    | [] => none
  | t => some t

/-- Consume an optional exponent part. -/
def afterExp : List Char → Option (List Char)
  | [] => some []
  | e :: r =>
    if e = 'e' || e = 'E' then
      let r2 := match r with
        | s :: r3 => if s = '+' || s = '-' then r3 else s :: r3
        | [] => []
      match r2 with
      | c :: r3 => if c.isDigit then some (r3.dropWhile Char.isDigit) else none
      | [] => none
    else some (e :: r)

/-- The JSON number grammar, as enforced by Go's scanner. -/
def validNumTok (tok : List Char) : Bool :=
  let t := match tok with | '-' :: r => r | _ => tok
  match afterInt t with
  | none => false
  | some r =>
    match afterFrac r with
    | none => false
    | some r2 =>
      match afterExp r2 with
      | none => false
      | some r3 => r3.isEmpty

mutual

/-- Parse one JSON value, returning it with the unconsumed remainder.  The
fuel argument only bounds recursion depth; callers supply more fuel than any
input can use, so exhaustion never decides a claim. -/
def parseVal : Nat → List Char → Except String (Jval × List Char)
  | 0, _ => .error "json parser fuel exhausted"
  | fuel + 1, cs =>
    match skipWs cs with
    | [] => .error "unexpected end of JSON input"
    | c :: rest =>
      if c = '{' then parseObjBody fuel rest true []
      else if c = '[' then parseArrBody fuel rest true []
      else if c = '"' then
        match scanStringAux [] rest with
        | .error e => .error e
        | .ok (s, r) => .ok (.jstr s, r)
      else if c = 't' then
        match rest with
        | 'r' :: 'u' :: 'e' :: r => .ok (.jbool true, r)
        | _ => .error "invalid character in literal"
      else if c = 'f' then
        match rest with
        | 'a' :: 'l' :: 's' :: 'e' :: r => .ok (.jbool false, r)
        | _ => .error "invalid character in literal"
      else if c = 'n' then
        match rest with
        | 'u' :: 'l' :: 'l' :: r => .ok (.jnull, r)
        | _ => .error "invalid character in literal"
      else if c = '-' || c.isDigit then
        let p := scanNumber (c :: rest)
        if validNumTok p.1.data then .ok (.jnum p.1, p.2)
        else .error "invalid number literal"
      else .error "invalid character looking for beginning of value"

/-- Parse the members of an object, after the opening brace. -/
def parseObjBody : Nat → List Char → Bool → List (String × Jval) →
    Except String (Jval × List Char)
  | 0, _, _, _ => .error "json parser fuel exhausted"
  | fuel + 1, cs, isFirst, acc =>
    match skipWs cs with
    | [] => .error "unexpected end of JSON input"
    | c :: rest =>
      if isFirst && c = '}' then .ok (.jobj acc.reverse, rest)
      else if c = '"' then
        match scanStringAux [] rest with
        | .error e => .error e
        | .ok (key, r1) =>
          match skipWs r1 with
          | ':' :: r2 =>
            match parseVal fuel r2 with
            | .error e => .error e
            | .ok (v, r3) =>
              match skipWs r3 with
              | ',' :: r4 => parseObjBody fuel r4 false ((key, v) :: acc)
              | '}' :: r4 => .ok (.jobj ((key, v) :: acc).reverse, r4)
              | _ => .error "invalid character after object member"
          | _ => .error "invalid character after object key"
      else .error "invalid character looking for object key"

/-- Parse the elements of an array, after the opening bracket. -/
def parseArrBody : Nat → List Char → Bool → List Jval →
    Except String (Jval × List Char)
  | 0, _, _, _ => .error "json parser fuel exhausted"
  | fuel + 1, cs, isFirst, acc =>
    match skipWs cs with
    | [] => .error "unexpected end of JSON input"
    | c :: rest =>
      if isFirst && c = ']' then .ok (.jarr acc.reverse, rest)
      else
        match parseVal fuel (c :: rest) with
        | .error e => .error e
        | .ok (v, r1) =>
          match skipWs r1 with
          | ',' :: r2 => parseArrBody fuel r2 false (v :: acc)
          | ']' :: r2 => .ok (.jarr (v :: acc).reverse, r2)
          | _ => .error "invalid character after array element"

end

/-- `json.Unmarshal`'s framing: one value, then only whitespace may remain. -/
def jsonParseWhole (s : String) : Except String Jval :=
  match parseVal (2 * s.data.length + 2) s.data with
  | .error e => .error e
  | .ok (v, rest) =>
    if (skipWs rest).isEmpty then .ok v
    else .error "invalid character after top-level value"

/-- `json.Decoder.Decode`'s framing: one value, trailing data left unread. -/
def jsonParseNext (s : String) : Except String Jval :=
  match parseVal (2 * s.data.length + 2) s.data with
  | .error e => .error e
  | .ok (v, _) => .ok v

/-- Look up a struct field by its JSON tag; Go keeps the last of duplicated
keys. -/
def lookupField (fields : List (String × Jval)) (name : String) : Option Jval :=
  ((fields.filter (fun p => p.1 = name)).getLast?).map (fun p => p.2)

/-- Decode a JSON field into a Go `string` field (absent or `null` leaves the
zero value `""`). -/
def decodeStringField : Option Jval → Except String String
  | none => .ok ""
  | some .jnull => .ok ""
  | some (.jstr s) => .ok s
  | some _ => .error "cannot unmarshal value into field of type string"

def digitsToNat (cs : List Char) : Nat :=
  cs.foldl (fun n c => 10 * n + (c.toNat - '0'.toNat)) 0

/-- Decode a JSON field into a Go `uint8` field: the literal token must be a
plain digit run (`strconv.ParseUint` rejects signs, fractions and exponents)
and its value must not overflow 8 bits. -/
def decodeUint8Field : Option Jval → Except String Nat
  | none => .ok 0
  | some .jnull => .ok 0
  | some (.jnum tok) =>
    if tok.data ≠ [] ∧ tok.data.all Char.isDigit then
      if digitsToNat tok.data ≤ 255 then .ok (digitsToNat tok.data)
      else .error ("cannot unmarshal number " ++ tok ++ " into field of type uint8")
    else .error ("cannot unmarshal number " ++ tok ++ " into field of type uint8")
  | some _ => .error "cannot unmarshal value into field of type uint8"

/-- `openrouter.DataResponse`: `ServiceID uint8`, `ServiceName string`.  The
`uint8` is modelled as `Nat`; `decodeUint8Field` enforces the 8-bit range. -/
structure DataResponse where
  ServiceID : Nat
  ServiceName : String
deriving Repr, DecidableEq

/-- Decode a JSON value into `DataResponse` (field decoding order is fixed;
Go reports the first bad field in input order, a difference that only affects
which message is reported when several fields are bad at once). -/
def decodeDataResponse : Jval → Except String DataResponse
  | .jnull => .ok ⟨0, ""⟩
  | .jobj fields =>
    match decodeUint8Field (lookupField fields "service_id") with
    | .error e => .error e
    | .ok id =>
      match decodeStringField (lookupField fields "service_name") with
      | .error e => .error e
      | .ok name => .ok ⟨id, name⟩
  | _ => .error "cannot unmarshal value into DataResponse"

/-- Decode one element of `OpenRouterResponse.Choices` to its
`Message.Content`. -/
def decodeContent : Jval → Except String String
  | .jnull => .ok ""
  | .jobj fields =>
    match lookupField fields "message" with
    | none => .ok ""
    | some .jnull => .ok ""
    | some (.jobj mf) => decodeStringField (lookupField mf "content")
    | some _ => .error "cannot unmarshal value into field message"
  | _ => .error "cannot unmarshal value into choice"

def decodeChoices : List Jval → Except String (List String)
  | [] => .ok []
  | v :: rest =>
    match decodeContent v with
    | .error e => .error e
    | .ok c =>
      match decodeChoices rest with
      | .error e => .error e
      | .ok cs => .ok (c :: cs)

/-- Decode a provider envelope (`OpenRouterResponse`) to the list of choice
contents. -/
def decodeOpenRouterResponse : Jval → Except String (List String)
  | .jnull => .ok []
  | .jobj fields =>
    match lookupField fields "choices" with
    | none => .ok []
    | some .jnull => .ok []
    | some (.jarr elems) => decodeChoices elems
    | some _ => .error "cannot unmarshal value into field choices"
  | _ => .error "cannot unmarshal value into OpenRouterResponse"

/-! ## Wire-level model types (`part_002`) -/

/-- `model.FindServiceRequest`: `{intent: string}`. -/
structure FindServiceRequest where
  Intent : String
deriving Repr, DecidableEq

/-- `model.ServiceData`: `{service_id: int, service_name: string}` (the wire
envelope uses a full `int`, unlike the client's `uint8`). -/
structure ServiceData where
  ServiceID : Int
  ServiceName : String
deriving Repr, DecidableEq

/-- `model.FindServiceResponse`: `{success, data omitempty, error omitempty}`;
`none` stands for an omitted field. -/
structure FindServiceResponse where
  Success : Bool
  Data : Option ServiceData
  Error : Option String
deriving Repr, DecidableEq

/-- Decode a JSON value into `FindServiceRequest`. -/
def decodeFindServiceRequest : Jval → Except String FindServiceRequest
  | .jnull => .ok ⟨""⟩
  | .jobj fields =>
    match decodeStringField (lookupField fields "intent") with
    | .error e => .error e
    | .ok s => .ok ⟨s⟩
  | _ => .error "cannot unmarshal value into FindServiceRequest"

/-- `json.Unmarshal(question, &FindServiceRequest{})`. -/
def unmarshalFindServiceRequest (s : String) : Except String FindServiceRequest :=
  match jsonParseWhole s with
  | .error e => .error e
  | .ok v => decodeFindServiceRequest v

/-! ## Core pipeline (`internal/core/core.go`) and handler (`part_001`) -/

/-- `Core.AskQuestion`: unmarshals the raw body into `FindServiceRequest`,
then — per the `// TODO mock response` stub — returns a hard-coded envelope
(`Data = {11, "Telefones de seguradoras"}`, zero-valued `Success = false`)
without ever consulting the OpenRouter client. -/
def AskQuestion (question : String) : Except String FindServiceResponse :=
  match unmarshalFindServiceRequest question with
  | .error e => .error e
  | .ok _ =>
    .ok { Success := false
          Data := some ⟨11, "Telefones de seguradoras"⟩
          Error := none }

/-- `findServiceHandler` (`part_001`): `readResult` is the outcome of
`extractIntentFromRequest` (i.e. `io.ReadAll` of the request body — an empty
body reads successfully as `""`).  The result is the status code passed to
`responseJSON` together with the envelope it encodes. -/
def findServiceHandler (readResult : Except String String) :
    Nat × FindServiceResponse :=
  match readResult with
  | .error e => (200, ⟨false, none, some ("invalid request: " ++ e)⟩)
  | .ok intentData =>
    match AskQuestion intentData with
    | .error e => (200, ⟨false, none, some ("internal server error: " ++ e)⟩)
    | .ok resp => (200, resp)

/-! ## Outbound client: the two `ChatCompletion` variants -/

/-- The provider's HTTP response as observed after `c.Do`. -/
structure ProviderResponse where
  StatusCode : Nat
  Body : String
deriving Repr, DecidableEq

/-- `Client.ChatCompletion` from `part_005`: reads the whole body
(`io.ReadAll`), surfaces it in the non-200 error, and uses `json.Unmarshal`
(whole-input framing) for both the envelope and the first choice's content. -/
def ChatCompletionReadAll (resp : ProviderResponse) : Except String DataResponse :=
  if resp.StatusCode ≠ 200 then
    .error ("API request failed with status " ++ toString resp.StatusCode ++ ": " ++ resp.Body)
  else
    match jsonParseWhole resp.Body with
    | .error e => .error ("error unmarshaling response: " ++ e ++ ". body: " ++ resp.Body)
    | .ok v =>
      match decodeOpenRouterResponse v with
      | .error e => .error ("error unmarshaling response: " ++ e ++ ". body: " ++ resp.Body)
      | .ok contents =>
        match contents with
        | [] => .error "no choices in response"
        | content :: _ =>
          match jsonParseWhole content with
          | .error e => .error ("error unmarshaling data response: " ++ e ++ ". content: " ++ content)
          | .ok dv =>
            match decodeDataResponse dv with
            | .error e => .error ("error unmarshaling data response: " ++ e ++ ". content: " ++ content)
            | .ok d => .ok d

/-- `Client.ChatCompletion` from `core.go` (pooled-buffer variant): the
non-200 error carries only the status code (the body was never read), and
both decodes go through `json.Decoder.Decode` (one value, trailing data
ignored). -/
def ChatCompletionPooled (resp : ProviderResponse) : Except String DataResponse :=
  if resp.StatusCode ≠ 200 then
    .error ("API request failed with status " ++ toString resp.StatusCode)
  else
    match jsonParseNext resp.Body with
    | .error e => .error ("error decoding response: " ++ e)
    | .ok v =>
      match decodeOpenRouterResponse v with
      | .error e => .error ("error decoding response: " ++ e)
      | .ok contents =>
        match contents with
        | [] => .error "no choices in response"
        | content :: _ =>
          match jsonParseNext content with
          | .error e => .error ("error decoding data response: " ++ e ++ ". content: " ++ content)
          | .ok dv =>
            match decodeDataResponse dv with
            | .error e => .error ("error decoding data response: " ++ e ++ ". content: " ++ content)
            | .ok d => .ok d

/-! ## HTTP façade: `statusOKWriter`, `forceStatusOK`, `responseJSON`
(`part_001`, wired in `part_003` as `Handler: forceStatusOK(router)`) -/

/-- The observable state of the underlying `http.ResponseWriter`: the status
line actually sent to the client (sent at most once) and the body bytes. -/
structure Underlying where
  status : Option Nat
  body : String
deriving Repr, DecidableEq

/-- net/http: only the first `WriteHeader` takes effect. -/
def underlyingWriteHeader (u : Underlying) (code : Nat) : Underlying :=
  match u.status with
  | some _ => u
  | none => { u with status := some code }

/-- net/http: a `Write` before any `WriteHeader` implicitly sends 200 first. -/
def underlyingWrite (u : Underlying) (s : String) : Underlying :=
  let u1 := match u.status with
    | some _ => u
    | none => { u with status := some 200 }
  { u1 with body := u1.body ++ s }

/-- `statusOKWriter`: wraps the underlying writer with a `wroteHeader` flag. -/
structure StatusOKWriter where
  u : Underlying
  wroteHeader : Bool
deriving Repr, DecidableEq

/-- `statusOKWriter.WriteHeader`: ignores the requested code and forwards 200
to the underlying writer, once. -/
def StatusOKWriter.WriteHeader (w : StatusOKWriter) (_code : Nat) : StatusOKWriter :=
  if w.wroteHeader then w
  else { u := underlyingWriteHeader w.u 200, wroteHeader := true }

/-- `Write` is promoted from the embedded `http.ResponseWriter`. -/
def StatusOKWriter.Write (w : StatusOKWriter) (s : String) : StatusOKWriter :=
  { w with u := underlyingWrite w.u s }

/-- The calls an inner handler can make on the wrapped response writer. -/
inductive WriterAction where
  | writeHeader (code : Nat)
  | write (s : String)

/-- Run an inner handler, abstracted as its sequence of writer calls, against
the wrapper (`forceStatusOK` hands each request a fresh `statusOKWriter`). -/
def runActions : StatusOKWriter → List WriterAction → StatusOKWriter
  | w, [] => w
  | w, .writeHeader c :: rest => runActions (w.WriteHeader c) rest
  | w, .write s :: rest => runActions (w.Write s) rest

/-- The fresh wrapper `forceStatusOK` builds for each request. -/
def freshWriter : StatusOKWriter := ⟨⟨none, ""⟩, false⟩

/-- The status the client receives: net/http sends 200 by default when a
handler finishes without writing anything. -/
def clientStatus (w : StatusOKWriter) : Nat := w.u.status.getD 200

/-- `responseJSON` (`part_001`): `encoded` is the outcome of
`json.NewEncoder(w).Encode(v)`, which on success writes the JSON text plus a
newline and on failure writes nothing; on failure the minimal fallback error
body is written instead. -/
def responseJSON (w : StatusOKWriter) (statusCode : Nat)
    (encoded : Except String String) : StatusOKWriter :=
  let w1 := w.WriteHeader statusCode
  match encoded with
  | .ok s => w1.Write (s ++ "\n")
  | .error _ => w1.Write "\x7b\"success\":false,\"error\":\"internal server error\"\x7d"

/-! ## Coherence checker (modelled from the spec) -/

/-- Modelled from the spec: the heuristic topic check of §4.3 looks for
"insurance"-stem text; the spec's example pair (`"preciso de ajuda"` vs
`"Telefones de seguradoras"`) pins the stem down to the Portuguese `segur`. -/
def containsInsuranceStem (s : String) : Bool := goContains s "segur"

/-- Modelled from the spec: the coherence checker of §4.3 is not among the
files under `src/` (only its data shapes and caller are).  Its checks are the
spec's ordered list, short-circuiting the remainder only on nil inputs;
`none` stands for a Go `nil` pointer. -/
def coherenceCheck (req : Option FindServiceRequest) (data : Option ServiceData) :
    List String :=
  match req with
  | none => ["request is nil"]
  | some r =>
    let d1 := if r.Intent = "" then ["request.intent is empty"] else []
    match data with
    | none => d1 ++ ["response data is nil"]
    | some d =>
      let d2 := if d.ServiceID ≤ 0 then ["response.service_id must be > 0"] else []
      let d3 := if d.ServiceName = "" then ["response.service_name is empty"] else []
      let d4 := if !containsInsuranceStem r.Intent && containsInsuranceStem d.ServiceName
        then ["potential mismatch between intent and service name"] else []
      d1 ++ d2 ++ d3 ++ d4

/-- Modelled from the spec: §3's response envelope with the optional
diagnostics list (the declarations under `src/` show only the
diagnostics-free envelope). -/
structure CoherentResponse where
  Success : Bool
  Data : Option ServiceData
  Diagnostics : List String
deriving Repr, DecidableEq

/-- Modelled from the spec: assemble the envelope from the checker's
diagnostics over the (request, data) pair on the no-error path; `success` is
true iff the diagnostics list is empty. -/
def buildCoherentResponse (req : Option FindServiceRequest)
    (data : Option ServiceData) : CoherentResponse :=
  let ds := coherenceCheck req data
  { Success := ds.isEmpty, Data := data, Diagnostics := ds }

/-! ## Concrete provider responses used by the client claims -/

/-- A 200-status provider body whose first choice's content is a valid JSON
object followed by trailing text (the reasoning preamble situation). -/
def c9Body : String :=
  "\x7b\"choices\":[\x7b\"message\":\x7b\"content\":\"\x7b\\\"service_id\\\":9,\\\"service_name\\\":\\\"Desbloqueio de Cartão\\\"\x7d trailing reasoning\"\x7d\x7d]\x7d"

/-- The first choice's content of `c9Body` after JSON string unescaping. -/
def c9Content : String :=
  "\x7b\"service_id\":9,\"service_name\":\"Desbloqueio de Cartão\"\x7d trailing reasoning"

/-- A provider body whose content carries a clean `service_id = 9` object. -/
def okBody : String :=
  "\x7b\"choices\":[\x7b\"message\":\x7b\"content\":\"\x7b\\\"service_id\\\":9,\\\"service_name\\\":\\\"OK\\\"\x7d\"\x7d\x7d]\x7d"

/-- A provider body whose content carries a negative `service_id`. -/
def negIdBody : String :=
  "\x7b\"choices\":[\x7b\"message\":\x7b\"content\":\"\x7b\\\"service_id\\\":-3,\\\"service_name\\\":\\\"X\\\"\x7d\"\x7d\x7d]\x7d"

/-- A provider body whose content carries a `service_id` above 255. -/
def bigIdBody : String :=
  "\x7b\"choices\":[\x7b\"message\":\x7b\"content\":\"\x7b\\\"service_id\\\":300,\\\"service_name\\\":\\\"X\\\"\x7d\"\x7d\x7d]\x7d"

/-- A provider body whose content carries a non-integral `service_id`. -/
def fracIdBody : String :=
  "\x7b\"choices\":[\x7b\"message\":\x7b\"content\":\"\x7b\\\"service_id\\\":2.5,\\\"service_name\\\":\\\"X\\\"\x7d\"\x7d\x7d]\x7d"

/-! ## Lemmas about the string helpers -/

theorem listStarts_nil (ys : List Char) : listStarts ys [] = true := by
  cases ys <;> rfl

theorem listStarts_refl_append (xs ys : List Char) : listStarts (xs ++ ys) xs = true := by
  induction xs with
  | nil => exact listStarts_nil ys
  | cons x t ih => simp [listStarts, ih]

theorem listInf_of_listStarts (ys xs : List Char) (h : listStarts ys xs = true) :
    listInf ys xs = true := by
  cases ys with
  | nil => cases xs with
    | nil => rfl
    | cons _ _ => simp [listStarts] at h
  | cons y t => simp [listInf, h]

theorem listInf_append (as xs bs : List Char) : listInf (as ++ xs ++ bs) xs = true := by
  induction as with
  | nil =>
      simp only [List.nil_append]
      exact listInf_of_listStarts _ _ (listStarts_refl_append xs bs)
  | cons a t ih =>
      simp only [List.cons_append, listInf, Bool.or_eq_true]
      right
      simpa using ih

theorem strData_append (a b : String) : (a ++ b).data = a.data ++ b.data := rfl

theorem listInf_suffix (as xs : List Char) : listInf (as ++ xs) xs = true := by
  have h := listInf_append as xs []
  simpa using h

/-! ## Theorems for the claims -/

theorem writeHeader_status (w : StatusOKWriter) (c : Nat)
    (h : w.u.status = none ∨ w.u.status = some 200) :
    (w.WriteHeader c).u.status = none ∨ (w.WriteHeader c).u.status = some 200 := by
  unfold StatusOKWriter.WriteHeader
  by_cases hw : w.wroteHeader
  · simpa [hw] using h
  · simp only [hw, if_false, Bool.false_eq_true, underlyingWriteHeader]
    rcases h with h | h <;> simp [h]

theorem write_status (w : StatusOKWriter) (s : String)
    (h : w.u.status = none ∨ w.u.status = some 200) :
    (w.Write s).u.status = none ∨ (w.Write s).u.status = some 200 := by
  unfold StatusOKWriter.Write underlyingWrite
  rcases h with h | h <;> simp [h]

theorem runActions_status (w : StatusOKWriter) (acts : List WriterAction)
    (h : w.u.status = none ∨ w.u.status = some 200) :
    (runActions w acts).u.status = none ∨ (runActions w acts).u.status = some 200 := by
  induction acts generalizing w with
  | nil => exact h
  | cons a rest ih =>
    cases a with
    | writeHeader c => exact ih _ (writeHeader_status w c h)
    | write s => exact ih _ (write_status w s h)

/-- C2: every request handled through the façade's wrapper reaches the client
with HTTP status 200, whatever writer calls the inner handler makes; and when
JSON-encoding of the response body fails, `responseJSON` still leaves the
client with status 200 and the minimal fallback error body. -/
theorem facade_always_200 :
    (∀ acts : List WriterAction, clientStatus (runActions freshWriter acts) = 200) ∧
    (∀ (statusCode : Nat) (e : String),
      clientStatus (responseJSON freshWriter statusCode (.error e)) = 200 ∧
      (responseJSON freshWriter statusCode (.error e)).u.body =
        "\x7b\"success\":false,\"error\":\"internal server error\"\x7d") := by
  constructor
  · intro acts
    have h := runActions_status freshWriter acts (Or.inl rfl)
    unfold clientStatus
    rcases h with h | h <;> simp [h]
  · intro statusCode e
    exact ⟨rfl, rfl⟩

/-- C3: the coherence checker (modelled from the spec, see
`coherenceCheck`) yields exactly `["request.intent is empty"]` on the empty
intent with data `{service_id := 1, service_name := "X"}`, and the envelope's
success flag is true iff the diagnostics list is empty. -/
theorem coherence_checker_props :
    coherenceCheck (some ⟨""⟩) (some ⟨1, "X"⟩) = ["request.intent is empty"] ∧
    (∀ (req : Option FindServiceRequest) (data : Option ServiceData),
      (buildCoherentResponse req data).Success = true ↔
        coherenceCheck req data = []) := by
  constructor
  · rfl
  · intro req data
    simp [buildCoherentResponse, List.isEmpty_iff]

/-- C5 counterexample: the claim also covers whitespace-only intents, but the
code only rejects the empty string — on the one-space intent both generators
succeed. -/
theorem c5_counterexample :
    (pmTest.GenerateClassificationPrompt " ").isOk = true ∧
    (pmTest.GenerateModelSpecificPrompt " " "mistralai/mistral-7b-instruct").isOk = true ∧
    (" " : String) ≠ "" := by
  refine ⟨rfl, rfl, by decide⟩

/-- C5 (amended): `GenerateClassificationPrompt` and
`GenerateModelSpecificPrompt` fail with the empty-intent error exactly when
the intent is the empty string (whitespace-only but non-empty intents are
accepted). -/
theorem prompt_generation_empty_intent :
    ∀ (pm : PromptManager) (intent modelName : String),
      ((pm.GenerateClassificationPrompt intent).isOk = false ↔ intent = "") ∧
      ((pm.GenerateModelSpecificPrompt intent modelName).isOk = false ↔ intent = "") := by
  intro pm intent modelName
  constructor
  · by_cases h : intent = "" <;>
      simp [PromptManager.GenerateClassificationPrompt, h, Except.isOk, Except.toBool]
  · by_cases h : intent = ""
    · simp [PromptManager.GenerateModelSpecificPrompt, h, Except.isOk, Except.toBool]
    · by_cases hm : goContains modelName "mistral" <;>
        simp [PromptManager.GenerateModelSpecificPrompt, h, hm, Except.isOk, Except.toBool]

/-- C7: `ValidatePromptResponse` succeeds iff both quoted field-name
substrings occur in the text (JSON well-formedness is irrelevant: the
malformed fragment passes), and a missing substring yields the error naming
that field. -/
theorem validate_prompt_response_props :
    ∀ (pm : PromptManager) (r : String),
      ((pm.ValidatePromptResponse r).isOk = true ↔
        (goContains r "\"service_id\"" = true ∧ goContains r "\"service_name\"" = true)) ∧
      (goContains r "\"service_id\"" = false →
        pm.ValidatePromptResponse r = .error "response missing service_id field") ∧
      (goContains r "\"service_id\"" = true → goContains r "\"service_name\"" = false →
        pm.ValidatePromptResponse r = .error "response missing service_name field") ∧
      pm.ValidatePromptResponse "\x7b\"service_id\": \"x\", \"service_name\"" = .ok () := by
  intro pm r
  refine ⟨?_, ?_, ?_, ?_⟩
  · by_cases h1 : goContains r "\"service_id\"" <;>
      by_cases h2 : goContains r "\"service_name\"" <;>
      simp [PromptManager.ValidatePromptResponse, h1, h2, Except.isOk, Except.toBool]
  · intro h1
    simp [PromptManager.ValidatePromptResponse, h1]
  · intro h1 h2
    simp [PromptManager.ValidatePromptResponse, h1, h2]
  · rfl

/-- C7 witness: applying the theorem at a concrete response that lacks
`"service_id"`. -/
theorem validate_prompt_response_props_witness :
    pmTest.ValidatePromptResponse "no relevant fields here" =
      .error "response missing service_id field" :=
  (validate_prompt_response_props pmTest "no relevant fields here").2.1 (by decide)

theorem strStarts_of_append (p t : String) : strStarts (p ++ t) p = true := by
  unfold strStarts
  rw [strData_append]
  exact listStarts_refl_append p.data t.data

theorem goContains_of_append (a xs b : String) : goContains (a ++ xs ++ b) xs = true := by
  unfold goContains
  rw [strData_append, strData_append]
  exact listInf_append a.data xs.data b.data

theorem goContains_of_append_right (a xs : String) : goContains (a ++ xs) xs = true := by
  unfold goContains
  rw [strData_append]
  exact listInf_suffix a.data xs.data

/-- C6: for every non-empty intent the classification prompt (and the
model-specific prompt outside the `mistral` family) starts with the full
system prompt, the `mistral` family wraps the system prompt in the
`<s>[INST] … [/INST]` format, and in all cases the generated prompt contains
the whitespace-trimmed intent verbatim as a substring. -/
theorem prompt_structure (pm : PromptManager) (intent modelName : String)
    (h : intent ≠ "") :
    (∀ p, pm.GenerateClassificationPrompt intent = .ok p →
      strStarts p pm.systemPrompt = true ∧ goContains p (trimSpace intent) = true) ∧
    (goContains modelName "mistral" = false →
      ∀ p, pm.GenerateModelSpecificPrompt intent modelName = .ok p →
        strStarts p pm.systemPrompt = true ∧ goContains p (trimSpace intent) = true) ∧
    (goContains modelName "mistral" = true →
      pm.GenerateModelSpecificPrompt intent modelName =
        .ok ("<s>[INST] " ++ pm.systemPrompt ++ " [/INST]\n\nUser Intent: " ++
          trimSpace intent) ∧
      ∀ p, pm.GenerateModelSpecificPrompt intent modelName = .ok p →
        goContains p (trimSpace intent) = true) := by
  refine ⟨?_, ?_, ?_⟩
  · intro p hp
    rw [PromptManager.GenerateClassificationPrompt, if_neg h] at hp
    cases hp
    constructor
    · rw [String.append_assoc, String.append_assoc]
      exact strStarts_of_append _ _
    · exact goContains_of_append _ _ _
  · intro hm p hp
    rw [PromptManager.GenerateModelSpecificPrompt, if_neg h] at hp
    rw [hm] at hp
    simp only [Bool.false_eq_true, if_false] at hp
    cases hp
    constructor
    · rw [String.append_assoc, String.append_assoc]
      exact strStarts_of_append _ _
    · exact goContains_of_append _ _ _
  · intro hm
    have he : pm.GenerateModelSpecificPrompt intent modelName =
        .ok ("<s>[INST] " ++ pm.systemPrompt ++ " [/INST]\n\nUser Intent: " ++
          trimSpace intent) := by
      rw [PromptManager.GenerateModelSpecificPrompt, if_neg h, hm]
      simp
    refine ⟨he, ?_⟩
    intro p hp
    rw [he] at hp
    cases hp
    exact goContains_of_append_right _ _

/-- C6 witness: the theorem applied at a concrete manager, intent and model
name. -/
theorem prompt_structure_witness :
    ("quero desbloquear meu cartao" : String) ≠ "" ∧
    ((∀ p, pmTest.GenerateClassificationPrompt "quero desbloquear meu cartao" = .ok p →
      strStarts p pmTest.systemPrompt = true ∧
      goContains p (trimSpace "quero desbloquear meu cartao") = true) ∧
    (goContains "gpt-4o" "mistral" = false →
      ∀ p, pmTest.GenerateModelSpecificPrompt "quero desbloquear meu cartao" "gpt-4o" = .ok p →
        strStarts p pmTest.systemPrompt = true ∧
        goContains p (trimSpace "quero desbloquear meu cartao") = true) ∧
    (goContains "gpt-4o" "mistral" = true →
      pmTest.GenerateModelSpecificPrompt "quero desbloquear meu cartao" "gpt-4o" =
        .ok ("<s>[INST] " ++ pmTest.systemPrompt ++ " [/INST]\n\nUser Intent: " ++
          trimSpace "quero desbloquear meu cartao") ∧
      ∀ p, pmTest.GenerateModelSpecificPrompt "quero desbloquear meu cartao" "gpt-4o" = .ok p →
        goContains p (trimSpace "quero desbloquear meu cartao") = true)) :=
  ⟨by decide, prompt_structure pmTest "quero desbloquear meu cartao" "gpt-4o" (by decide)⟩

/-- C1: the claim expects the mocked end-to-end flow to answer
`success = true` with service 9; but `Core.AskQuestion` is a stub that never
consults the (mocked) external API and returns the hard-coded envelope
`{success := false, data := {service_id := 11,
service_name := "Telefones de seguradoras"}}`, which the handler republishes
under status 200. -/
theorem c1_handler_eval :
    findServiceHandler (.ok "\x7b\"intent\":\"quero desbloquear meu cartao\"\x7d") =
      (200, ⟨false, some ⟨11, "Telefones de seguradoras"⟩, none⟩) ∧
    (findServiceHandler (.ok "\x7b\"intent\":\"quero desbloquear meu cartao\"\x7d")).2 ≠
      ⟨true, some ⟨9, "Desbloqueio de Cartão"⟩, none⟩ := by
  constructor
  · rfl
  · decide

/-- C4 counterexample: on an empty request body the handler's error is
prefixed `internal server error:` (the body reads successfully as `""` and
the JSON decode fails inside `AskQuestion`), not `invalid request:` as the
claim states. -/
theorem c4_counterexample :
    (findServiceHandler (.ok "")).1 = 200 ∧
    (findServiceHandler (.ok "")).2.Error =
      some "internal server error: unexpected end of JSON input" ∧
    strStarts "internal server error: unexpected end of JSON input"
      "invalid request:" = false := by
  refine ⟨rfl, rfl, by decide⟩

/-- C4 (amended): a malformed or empty request body still yields status 200
with `success = false`, but its error is prefixed `internal server error: `
(the decode failure happens inside `AskQuestion`); the `invalid request: `
prefix is produced only when reading the request body itself fails. -/
theorem c4_amended :
    (∀ body : String, (unmarshalFindServiceRequest body).isOk = false →
      (findServiceHandler (.ok body)).1 = 200 ∧
      (findServiceHandler (.ok body)).2.Success = false ∧
      ∃ e, unmarshalFindServiceRequest body = .error e ∧
        (findServiceHandler (.ok body)).2.Error =
          some ("internal server error: " ++ e)) ∧
    (∀ e : String, findServiceHandler (.error e) =
      (200, ⟨false, none, some ("invalid request: " ++ e)⟩)) := by
  constructor
  · intro body hbad
    cases hu : unmarshalFindServiceRequest body with
    | ok v => rw [hu] at hbad; simp [Except.isOk, Except.toBool] at hbad
    | error e =>
      refine ⟨?_, ?_, e, rfl, ?_⟩ <;>
        simp [findServiceHandler, AskQuestion, hu]
  · intro e
    rfl

/-- C4 witness: the amended theorem applied at the empty body. -/
theorem c4_amended_witness :
    (unmarshalFindServiceRequest "").isOk = false ∧
    ((findServiceHandler (.ok "")).1 = 200 ∧
      (findServiceHandler (.ok "")).2.Success = false ∧
      ∃ e, unmarshalFindServiceRequest "" = .error e ∧
        (findServiceHandler (.ok "")).2.Error =
          some ("internal server error: " ++ e)) :=
  ⟨by rfl, c4_amended.1 "" (by rfl)⟩

/-- C8 counterexample: on a non-200 provider response the pooled-buffer
variant's error carries only the status code — the response body `"BOOM"`
does not occur in it. -/
theorem c8_counterexample :
    ChatCompletionPooled ⟨500, "BOOM"⟩ =
      .error "API request failed with status 500" ∧
    goContains "API request failed with status 500" "BOOM" = false := by
  refine ⟨rfl, by decide⟩

/-- C8 (amended): on a non-200 provider status both `ChatCompletion`
implementations fail; the `part_005` (read-all) variant surfaces the response
body inside its error message, while the pooled-buffer variant reports only
the status code. -/
theorem c8_amended (resp : ProviderResponse) (h : resp.StatusCode ≠ 200) :
    (ChatCompletionReadAll resp =
      .error ("API request failed with status " ++ toString resp.StatusCode ++
        ": " ++ resp.Body) ∧
     goContains ("API request failed with status " ++ toString resp.StatusCode ++
        ": " ++ resp.Body) resp.Body = true) ∧
    ChatCompletionPooled resp =
      .error ("API request failed with status " ++ toString resp.StatusCode) := by
  refine ⟨⟨?_, ?_⟩, ?_⟩
  · rw [ChatCompletionReadAll, if_pos h]
  · exact goContains_of_append_right _ _
  · rw [ChatCompletionPooled, if_pos h]

/-- C8 witness: the amended theorem applied at a concrete 500 response. -/
theorem c8_amended_witness :
    (500 : Nat) ≠ 200 ∧
    ((ChatCompletionReadAll ⟨500, "BOOM"⟩ =
        .error ("API request failed with status " ++ toString (500 : Nat) ++
          ": " ++ "BOOM") ∧
      goContains ("API request failed with status " ++ toString (500 : Nat) ++
          ": " ++ "BOOM") "BOOM" = true) ∧
     ChatCompletionPooled ⟨500, "BOOM"⟩ =
        .error ("API request failed with status " ++ toString (500 : Nat))) :=
  ⟨by decide, c8_amended ⟨500, "BOOM"⟩ (by decide)⟩

/-- C9: on the same 200-status provider response — whose first choice's
content is a valid JSON object followed by trailing text — the
stream-decoder variant (`core.go`) succeeds with that object's fields while
the `json.Unmarshal` variant (`part_005`) fails with a decode error: the two
implementations are not extensionally equal. -/
theorem chat_completion_variants_differ :
    ChatCompletionPooled ⟨200, c9Body⟩ = .ok ⟨9, "Desbloqueio de Cartão"⟩ ∧
    ChatCompletionReadAll ⟨200, c9Body⟩ =
      .error ("error unmarshaling data response: invalid character after top-level value. content: "
        ++ c9Content) := by
  constructor
  · rfl
  · rfl

theorem decodeUint8Field_le (o : Option Jval) (n : Nat)
    (h : decodeUint8Field o = .ok n) : n ≤ 255 := by
  match o with
  | none => injection h with h2; omega
  | some .jnull => injection h with h2; omega
  | some (.jnum tok) =>
    rw [decodeUint8Field] at h
    split at h
    · split at h
      · next hle => injection h with h2; omega
      · exact absurd h (by simp)
    · exact absurd h (by simp)
  | some (.jbool b) => exact absurd h (by simp [decodeUint8Field])
  | some (.jstr s) => exact absurd h (by simp [decodeUint8Field])
  | some (.jarr es) => exact absurd h (by simp [decodeUint8Field])
  | some (.jobj fs) => exact absurd h (by simp [decodeUint8Field])

theorem decodeDataResponse_le (v : Jval) (d : DataResponse)
    (h : decodeDataResponse v = .ok d) : d.ServiceID ≤ 255 := by
  match v with
  | .jnull => injection h with h2; rw [← h2]; decide
  | .jobj fields =>
    rw [decodeDataResponse] at h
    split at h
    · exact absurd h (by simp)
    · next id hid =>
      split at h
      · exact absurd h (by simp)
      · next name hname =>
        injection h with h2
        rw [← h2]
        exact decodeUint8Field_le _ _ hid
  | .jbool b => exact absurd h (by simp [decodeDataResponse])
  | .jnum tok => exact absurd h (by simp [decodeDataResponse])
  | .jstr s => exact absurd h (by simp [decodeDataResponse])
  | .jarr es => exact absurd h (by simp [decodeDataResponse])

theorem chatCompletionReadAll_id_le (resp : ProviderResponse) (d : DataResponse)
    (h : ChatCompletionReadAll resp = .ok d) : d.ServiceID ≤ 255 := by
  rw [ChatCompletionReadAll] at h
  split at h
  · exact absurd h (by simp)
  · split at h
    · exact absurd h (by simp)
    · split at h
      · exact absurd h (by simp)
      · split at h
        · exact absurd h (by simp)
        · split at h
          · exact absurd h (by simp)
          · split at h
            · exact absurd h (by simp)
            · next d0 heq =>
              injection h with h2
              rw [← h2]
              exact decodeDataResponse_le _ _ heq

theorem chatCompletionPooled_id_le (resp : ProviderResponse) (d : DataResponse)
    (h : ChatCompletionPooled resp = .ok d) : d.ServiceID ≤ 255 := by
  rw [ChatCompletionPooled] at h
  split at h
  · exact absurd h (by simp)
  · split at h
    · exact absurd h (by simp)
    · split at h
      · exact absurd h (by simp)
      · split at h
        · exact absurd h (by simp)
        · split at h
          · exact absurd h (by simp)
          · split at h
            · exact absurd h (by simp)
            · next d0 heq =>
              injection h with h2
              rw [← h2]
              exact decodeDataResponse_le _ _ heq

/-- C10: every successful `ChatCompletion` (either variant) returns a
`service_id` within the unsigned-8-bit range, and provider contents whose
`service_id` is negative, above 255 or non-integral make the call fail with a
decode error. -/
theorem service_id_uint8_range :
    (∀ (resp : ProviderResponse) (d : DataResponse),
      ChatCompletionReadAll resp = .ok d → d.ServiceID ≤ 255) ∧
    (∀ (resp : ProviderResponse) (d : DataResponse),
      ChatCompletionPooled resp = .ok d → d.ServiceID ≤ 255) ∧
    (ChatCompletionReadAll ⟨200, negIdBody⟩).isOk = false ∧
    (ChatCompletionReadAll ⟨200, bigIdBody⟩).isOk = false ∧
    (ChatCompletionReadAll ⟨200, fracIdBody⟩).isOk = false := by
  refine ⟨chatCompletionReadAll_id_le, chatCompletionPooled_id_le, rfl, rfl, rfl⟩

/-- C10 witness: the range bound applied at a concrete successful call. -/
theorem service_id_uint8_range_witness :
    ChatCompletionReadAll ⟨200, okBody⟩ = .ok ⟨9, "OK"⟩ ∧
    (⟨9, "OK"⟩ : DataResponse).ServiceID ≤ 255 :=
  ⟨by rfl, service_id_uint8_range.1 ⟨200, okBody⟩ ⟨9, "OK"⟩ (by rfl)⟩
